import Mathlib

/-!
Verification of `src/actions/stream-checker.ts` (sd-plugin-sooplive-checker).

The TypeScript source is a Stream Deck action controller holding three
per-context maps (`timers`, `states`, `fetchIntervals`), an interval parser
(`safeParseInt`, JavaScript `parseInt`), a liveness query (`checkStreaming`)
and the lifecycle handlers (`registerSchedule` via `onWillAppear`,
`onDidReceiveSettings`, `onWillDisappear`, `onKeyDown`, `onKeyUp`).

We embed the state as a structure of total functions `String → Option _`
(extensionally faithful to JS `Map`, whose `delete` on a missing key is a
no-op), timers as values carrying a fresh numeric handle plus the interval
the timer was created with, and the host-facing side effects of the key
handlers as explicit command lists.
-/

namespace StreamChecker

/-- One JavaScript digit character in a given base, as `parseInt` accepts it
(`0`-`9`, then letters case-insensitively), rejected when its value reaches
the base. -/
def charDigitVal (base : Nat) (c : Char) : Option Nat :=
  let v : Option Nat :=
    if c.isDigit then some (c.toNat - 48)
    else if 'a' ≤ c ∧ c ≤ 'z' then some (c.toNat - 87)
    else if 'A' ≤ c ∧ c ≤ 'Z' then some (c.toNat - 55)
    else none
  match v with
  | some d => if d < base then some d else none
  | none => none

/-- Accumulate the value of the longest digit run at the head of the list,
stopping at the first character that is not a digit of the base (JavaScript
`parseInt` ignores trailing garbage). -/
def digitsAcc (base : Nat) : List Char → Nat → Nat
  | [], acc => acc
  | c :: cs, acc =>
    match charDigitVal base c with
    | some d => digitsAcc base cs (acc * base + d)
    | none => acc

/-- Value of the longest digit run at the head of the list; `none` when the
very first character is not a digit of the base (`parseInt` returns `NaN`). -/
def parseDigits (base : Nat) : List Char → Option Nat
  | [] => none
  | c :: cs =>
    match charDigitVal base c with
    | some d => some (digitsAcc base cs d)
    | none => none

/-- The whitespace characters JavaScript `parseInt` strips from the front. -/
def jsWhitespace (c : Char) : Bool :=
  (c == ' ') || (c == '\t') || (c == '\n') || (c == '\r') ||
  (c == '\x0b') || (c == '\x0c') || (c == '\xa0')

/-- `parseInt` after sign handling: an explicit `0x`/`0X` prefix switches to
base 16 (the radix argument is omitted at the `registerSchedule` call site),
otherwise the digits are read in base 10. -/
def jsParseIntFrom (sign : Int) (cs : List Char) : Option Int :=
  match cs with
  | '0' :: c :: rest =>
    if c == 'x' || c == 'X' then
      (parseDigits 16 rest).map (fun n => sign * (n : Int))
    else
      (parseDigits 10 ('0' :: c :: rest)).map (fun n => sign * (n : Int))
  | cs => (parseDigits 10 cs).map (fun n => sign * (n : Int))

/-- JavaScript `parseInt(s)` (no radix argument): skip leading whitespace,
read an optional sign, then the longest digit run; `none` models `NaN`. -/
def jsParseInt (s : String) : Option Int :=
  match s.data.dropWhile jsWhitespace with
  | '-' :: rest => jsParseIntFrom (-1) rest
  | '+' :: rest => jsParseIntFrom 1 rest
  | cs => jsParseIntFrom 1 cs

/-- The error thrown by `safeParseInt` (`new Error('Invalid number format')`). -/
inductive ParseErr
  | invalidNumberFormat
deriving DecidableEq

/-- `safeParseInt(str)`: throws on `undefined`, tests `/^\d+$/`, and on
success returns `parseInt(str, 10)`, which on a pure digit string is the
decimal value (computed here by the same base-10 accumulation). -/
def safeParseInt (str : Option String) : Except ParseErr Nat :=
  match str with
  | none => .error .invalidNumberFormat
  | some s =>
    if s.data ≠ [] ∧ s.data.all Char.isDigit then
      .ok (digitsAcc 10 s.data 0)
    else
      .error .invalidNumberFormat

/-- The provider call's outcome as `checkStreaming` observes it: a parsed
response carrying the integer `CHANNEL.RESULT`, or any thrown/rejected
failure (transport error, or a payload without that field, which throws on
access and is caught by the same handler). -/
inductive ProviderResponse
  | payload (result : Int)
  | failure
deriving DecidableEq

/-- `checkStreaming`: `RESULT` 0 → offline, 1 → live, -6 → live (member or
adult only), anything else → offline; every caught error → offline. -/
def checkStreaming (resp : ProviderResponse) : Bool :=
  match resp with
  | .payload r =>
    if r = 0 then false
    else if r = 1 then true
    else if r = -6 then true
    else false
  | .failure => false

/-- A live repeating timer: its handle (`setInterval` return value, fresh at
creation) and the interval in milliseconds it fires at. -/
structure Timer where
  id : Nat
  interval : Nat
deriving DecidableEq

/-- The controller's per-context registry: the three `Map` fields of the
`StreamChecker` class, plus a counter supplying fresh timer handles. -/
@[ext]
structure RegistryState where
  timers : String → Option Timer
  states : String → Option Nat
  fetchIntervals : String → Option Nat
  nextTimerId : Nat

/-- Point update of one map entry (`Map.set` for `some`, `Map.delete` for
`none`; `delete` of a missing key leaves the map extensionally unchanged). -/
def setEntry {α : Type} (f : String → Option α) (k : String) (v : Option α) :
    String → Option α :=
  fun c => if c = k then v else f c

/-- The registry before any context appears. -/
def emptyState : RegistryState :=
  { timers := fun _ => none
    states := fun _ => none
    fetchIntervals := fun _ => none
    nextTimerId := 0 }

/-- The interval `registerSchedule` resolves from a defined
`fetch_interval` string: start from 5000, parse with `parseInt` (which never
throws; `NaN` fails both comparisons), clamp (0, 1000) up to 1000, take
values ≥ 1000 verbatim. -/
def resolveInterval (raw : String) : Nat :=
  match jsParseInt raw with
  | none => 5000
  | some v =>
    if v < 1000 ∧ 0 < v then 1000
    else if 1000 ≤ v then v.toNat
    else 5000

/-- `registerSchedule(ev)`: no-op when a timer for the context exists or
`fetch_interval` is `undefined`; otherwise stores the resolved interval,
resets the state to 0, and starts one fresh timer at that interval. -/
def registerSchedule (st : RegistryState) (ctx : String)
    (fetch_interval : Option String) : RegistryState :=
  if (st.timers ctx).isSome then st
  else
    match fetch_interval with
    | none => st
    | some raw =>
      let fi := resolveInterval raw
      { timers := setEntry st.timers ctx (some { id := st.nextTimerId, interval := fi })
        states := setEntry st.states ctx (some 0)
        fetchIntervals := setEntry st.fetchIntervals ctx (some fi)
        nextTimerId := st.nextTimerId + 1 }

/-- `this.fetchIntervals.get(context) || 5000`: missing entry gives 5000 and
a stored 0 would be falsy (stored intervals are in fact always ≥ 1000). -/
def currentIntervalOf (st : RegistryState) (ctx : String) : Nat :=
  match st.fetchIntervals ctx with
  | none => 5000
  | some v => if v = 0 then 5000 else v

/-- The interval `onDidReceiveSettings` compares against: `safeParseInt` of
the new setting, keeping the current interval when it throws. -/
def newIntervalOf (st : RegistryState) (ctx : String)
    (fetch_interval : Option String) : Nat :=
  match safeParseInt fetch_interval with
  | .ok v => v
  | .error _ => currentIntervalOf st ctx

/-- `onDidReceiveSettings(ev)`: when the strictly parsed interval equals the
stored one, nothing happens; otherwise the context's timer is cleared and
removed and `registerSchedule` runs again with the new settings. -/
def onDidReceiveSettings (st : RegistryState) (ctx : String)
    (fetch_interval : Option String) : RegistryState :=
  if newIntervalOf st ctx fetch_interval = currentIntervalOf st ctx then st
  else
    registerSchedule { st with timers := setEntry st.timers ctx none } ctx fetch_interval

/-- `onWillDisappear(ev)`: clear the timer when present and delete the
context's entries from all three maps. -/
def onWillDisappear (st : RegistryState) (ctx : String) : RegistryState :=
  { st with
    timers := setEntry st.timers ctx none
    states := setEntry st.states ctx none
    fetchIntervals := setEntry st.fetchIntervals ctx none }

/-- Host-facing commands the key handlers issue, in order. -/
inductive HostCommand
  | setVisualState (state : Nat)
  | openUrl (url : String)
deriving DecidableEq

/-- `this.states.get(context) || 0`: the stored state, 0 when missing (a
stored 0 is falsy and also yields 0). -/
def stateOrZero (st : RegistryState) (ctx : String) : Nat :=
  match st.states ctx with
  | none => 0
  | some v => v

/-- `onKeyDown(ev)`: re-apply the last known state, then open the player
page for the configured streamer id. -/
def onKeyDown (st : RegistryState) (ctx streamerId : String) : List HostCommand :=
  [ .setVisualState (stateOrZero st ctx),
    .openUrl ("https://play.sooplive.co.kr/" ++ streamerId) ]

/-- `onKeyUp(ev)`: re-apply the last known state. -/
def onKeyUp (st : RegistryState) (ctx : String) : List HostCommand :=
  [ .setVisualState (stateOrZero st ctx) ]

/-- A registry holding one context whose raw interval "500" was clamped to
1000 at registration, whose timer has handle 0, and whose last poll saw the
channel live (state 1). -/
def sampleClampState : RegistryState :=
  { timers := setEntry emptyState.timers "ctx-a" (some { id := 0, interval := 1000 })
    states := setEntry emptyState.states "ctx-a" (some 1)
    fetchIntervals := setEntry emptyState.fetchIntervals "ctx-a" (some 1000)
    nextTimerId := 1 }

/-- A registry holding one context registered at interval 1500 (timer handle
0) whose last poll saw the channel live (state 1). -/
def sampleStrictState : RegistryState :=
  { timers := setEntry emptyState.timers "ctx-a" (some { id := 0, interval := 1500 })
    states := setEntry emptyState.states "ctx-a" (some 1)
    fetchIntervals := setEntry emptyState.fetchIntervals "ctx-a" (some 1500)
    nextTimerId := 1 }

theorem setEntry_self {α : Type} (f : String → Option α) (k : String) (v : Option α) :
    setEntry f k v k = v := by
  simp [setEntry]

theorem setEntry_ne {α : Type} (f : String → Option α) (k c : String) (v : Option α)
    (h : c ≠ k) : setEntry f k v c = f c := by
  simp [setEntry, h]

theorem registerSchedule_untouched (st : RegistryState) (a b : String)
    (fi : Option String) (h : b ≠ a) :
    (registerSchedule st a fi).timers b = st.timers b ∧
    (registerSchedule st a fi).states b = st.states b ∧
    (registerSchedule st a fi).fetchIntervals b = st.fetchIntervals b := by
  by_cases ht : (st.timers a).isSome
  · simp [registerSchedule, ht]
  · cases fi with
    | none => simp [registerSchedule, ht]
    | some raw => simp [registerSchedule, ht, setEntry, h]

/-- Claim C1: `checkStreaming` maps `CHANNEL.RESULT` 0 to offline, 1 to
live, -6 to live, every other code to offline, and any thrown or rejected
provider call to offline, so the call never propagates an error. -/
theorem checkStreaming_liveness_mapping (r : Int) :
    checkStreaming (.payload 0) = false ∧
    checkStreaming (.payload 1) = true ∧
    checkStreaming (.payload (-6)) = true ∧
    (r ≠ 0 → r ≠ 1 → r ≠ -6 → checkStreaming (.payload r) = false) ∧
    checkStreaming .failure = false := by
  refine ⟨by decide, by decide, by decide, ?_, by decide⟩
  intro h0 h1 h6
  simp [checkStreaming, h0, h1, h6]

/-- Witness for C1 at the code 7 named by the spec. -/
theorem checkStreaming_liveness_mapping_witness :
    checkStreaming (.payload 7) = false :=
  (checkStreaming_liveness_mapping 7).2.2.2.1 (by decide) (by decide) (by decide)

/-- Claim C5: a context has at most one active timer; running the
registration procedure while a timer is active is a no-op (the whole state,
hence every map entry and the interval, is unchanged), and in particular
registering twice without a deregistration in between leaves the one timer
of the first registration in place. -/
theorem register_twice_noop (st st0 : RegistryState) (ctx : String)
    (fi fi2 : Option String) (raw : String)
    (h : (st.timers ctx).isSome = true) (h0 : st0.timers ctx = none) :
    registerSchedule st ctx fi = st ∧
    registerSchedule (registerSchedule st0 ctx (some raw)) ctx fi2 =
      registerSchedule st0 ctx (some raw) := by
  have h1 : ∀ (s : RegistryState) (f : Option String), (s.timers ctx).isSome = true →
      registerSchedule s ctx f = s := by
    intro s f hs
    simp [registerSchedule, hs]
  refine ⟨h1 st fi h, h1 _ fi2 ?_⟩
  simp [registerSchedule, h0, setEntry]

/-- Witness for C5: a registered context and a fresh one. -/
theorem register_twice_noop_witness :
    registerSchedule sampleStrictState "ctx-a" (some "2000") = sampleStrictState :=
  (register_twice_noop sampleStrictState emptyState "ctx-a" (some "2000") none "3000"
    (by decide) rfl).1

/-- Claim C8: on key down the stored state (0 when no entry exists) is
re-applied to the host surface before the click-through that opens
`https://play.sooplive.co.kr/<streamer_id>`; on key up the stored state is
re-applied likewise. -/
theorem activation_reapplies_state_then_url (st : RegistryState) (ctx sid : String) :
    onKeyDown st ctx sid =
      [HostCommand.setVisualState (stateOrZero st ctx),
       HostCommand.openUrl ("https://play.sooplive.co.kr/" ++ sid)] ∧
    onKeyUp st ctx = [HostCommand.setVisualState (stateOrZero st ctx)] ∧
    (st.states ctx = none → stateOrZero st ctx = 0) ∧
    (∀ v : Nat, st.states ctx = some v → stateOrZero st ctx = v) := by
  refine ⟨rfl, rfl, ?_, ?_⟩
  · intro h; simp [stateOrZero, h]
  · intro v h; simp [stateOrZero, h]

/-- Witness for C8 on the empty registry. -/
theorem activation_reapplies_state_then_url_witness :
    stateOrZero emptyState "ctx-a" = 0 :=
  (activation_reapplies_state_then_url emptyState "ctx-a" "streamer").2.2.1 rfl

/-- Claim C10: when `fetch_interval` is undefined and the context has no
active timer, registration does nothing: no timer is created and no entry
is added to any of the three maps (the state is returned unchanged), so the
target is never polled until a defined interval string arrives. -/
theorem registration_absent_interval_noop (st : RegistryState) (ctx : String)
    (h : st.timers ctx = none) :
    registerSchedule st ctx none = st ∧
    (registerSchedule st ctx none).timers ctx = none ∧
    (registerSchedule st ctx none).states ctx = st.states ctx ∧
    (registerSchedule st ctx none).fetchIntervals ctx = st.fetchIntervals ctx := by
  have hid : registerSchedule st ctx none = st := by
    simp [registerSchedule]
  exact ⟨hid, by rw [hid]; exact h, by rw [hid], by rw [hid]⟩

/-- Witness for C10 on the empty registry. -/
theorem registration_absent_interval_noop_witness :
    registerSchedule emptyState "ctx-a" none = emptyState :=
  (registration_absent_interval_noop emptyState "ctx-a" rfl).1

/-- Counterexample to C2: the claim says an absent `fetch_interval` resolves
to 5000, which is stored and used to start a timer; the code instead skips
registration entirely when `fetch_interval` is undefined — nothing is stored
and no timer starts. -/
theorem registration_resolution_counterexample :
    (registerSchedule emptyState "ctx-a" none).timers "ctx-a" = none ∧
    (registerSchedule emptyState "ctx-a" none).fetchIntervals "ctx-a" = none ∧
    (registerSchedule emptyState "ctx-a" none).states "ctx-a" = none :=
  ⟨rfl, rfl, rfl⟩

/-- Claim C2 (amended): at first registration with a *defined*
`fetch_interval` string, the resolved interval is 5000 when the string does
not parse to a positive integer, 1000 when the parsed value is strictly
between 0 and 1000, and the parsed value verbatim when it is at least 1000;
the resolved interval is stored and one fresh timer starts at it, the state
is initialised to 0. (When `fetch_interval` is absent, registration does
nothing at all.) Raw "500" resolves to 1000, "1500" to 1500, "abc" to 5000. -/
theorem registration_interval_resolution (st : RegistryState) (ctx raw : String)
    (h : st.timers ctx = none) :
    (registerSchedule st ctx (some raw)).fetchIntervals ctx = some (resolveInterval raw) ∧
    (registerSchedule st ctx (some raw)).timers ctx =
      some { id := st.nextTimerId, interval := resolveInterval raw } ∧
    (registerSchedule st ctx (some raw)).states ctx = some 0 ∧
    (jsParseInt raw = none → resolveInterval raw = 5000) ∧
    (∀ v : Int, jsParseInt raw = some v → v ≤ 0 → resolveInterval raw = 5000) ∧
    (∀ v : Int, jsParseInt raw = some v → 0 < v → v < 1000 → resolveInterval raw = 1000) ∧
    (∀ v : Int, jsParseInt raw = some v → 1000 ≤ v → resolveInterval raw = v.toNat) ∧
    resolveInterval "500" = 1000 ∧
    resolveInterval "1500" = 1500 ∧
    resolveInterval "abc" = 5000 := by
  have hne : (st.timers ctx).isSome = false := by simp [h]
  refine ⟨?_, ?_, ?_, ?_, ?_, ?_, ?_, by decide, by decide, by decide⟩
  · simp [registerSchedule, hne, setEntry]
  · simp [registerSchedule, hne, setEntry]
  · simp [registerSchedule, hne, setEntry]
  · intro hp; simp [resolveInterval, hp]
  · intro v hp hv
    simp only [resolveInterval, hp]
    split_ifs <;> omega
  · intro v hp hv0 hv1
    simp only [resolveInterval, hp]
    split_ifs <;> omega
  · intro v hp hv
    simp only [resolveInterval, hp]
    split_ifs <;> omega

/-- Witness for C2 (amended) on the empty registry with raw "1500". -/
theorem registration_interval_resolution_witness :
    (registerSchedule emptyState "ctx-a" (some "1500")).fetchIntervals "ctx-a" = some 1500 := by
  have h := (registration_interval_resolution emptyState "ctx-a" "1500" rfl).1
  have hv : resolveInterval "1500" = 1500 := by decide
  rw [hv] at h
  exact h

/-- Counterexample to C3: the context registered with raw "500" stores the
clamped interval 1000. Updating the settings with the same raw "500"
resolves — under the claim's "same parsing-and-clamping rule as
registration" — to 1000, equal to the stored interval, so the claim demands
a no-op. The code instead compares the unclamped strict parse (500 ≠ 1000),
cancels the timer (handle 0 is replaced by fresh handle 1) and resets the
state from 1 to 0. -/
theorem settings_update_unchanged_counterexample :
    resolveInterval "500" = currentIntervalOf sampleClampState "ctx-a" ∧
    sampleClampState.timers "ctx-a" = some { id := 0, interval := 1000 } ∧
    (onDidReceiveSettings sampleClampState "ctx-a" (some "500")).timers "ctx-a" =
      some { id := 1, interval := 1000 } ∧
    sampleClampState.states "ctx-a" = some 1 ∧
    (onDidReceiveSettings sampleClampState "ctx-a" (some "500")).states "ctx-a" =
      some 0 := by
  refine ⟨by decide, by decide, by decide, by decide, by decide⟩

/-- Claim C3 (amended): a settings update whose new interval — computed by
the *strict digit-only parser with no clamping* (`safeParseInt`), falling
back to the currently stored interval when parsing fails — equals the
currently stored interval has no effect: the state is returned unchanged,
so the timer, its handle, the stored state and the stored interval are all
preserved. -/
theorem settings_update_unchanged_noop (st : RegistryState) (ctx : String)
    (raw : Option String)
    (h : newIntervalOf st ctx raw = currentIntervalOf st ctx) :
    onDidReceiveSettings st ctx raw = st := by
  simp [onDidReceiveSettings, h]

/-- Witness for C3 (amended): updating the 1500ms context with raw "1500". -/
theorem settings_update_unchanged_noop_witness :
    onDidReceiveSettings sampleStrictState "ctx-a" (some "1500") = sampleStrictState :=
  settings_update_unchanged_noop sampleStrictState "ctx-a" (some "1500") (by decide)

/-- Counterexample to C4: the context stores interval 1500; the update
carries raw " 2000", which the registration parsing-and-clamping rule
resolves to 2000 ≠ 1500, so the claim demands the timer be cancelled and
re-created at the new interval with the state reset to 0. The code's
comparison uses the strict parser, which rejects the leading space and falls
back to 1500 = 1500: the update is a complete no-op, the old timer keeps
running at 1500 and the state stays 1. -/
theorem settings_update_changed_counterexample :
    resolveInterval " 2000" = 2000 ∧
    currentIntervalOf sampleStrictState "ctx-a" = 1500 ∧
    onDidReceiveSettings sampleStrictState "ctx-a" (some " 2000") = sampleStrictState ∧
    sampleStrictState.timers "ctx-a" = some { id := 0, interval := 1500 } ∧
    sampleStrictState.states "ctx-a" = some 1 := by
  refine ⟨by decide, by decide, rfl, by decide, by decide⟩

/-- Claim C4 (amended): for a registered context, a settings update whose
new interval — computed by the strict digit-only parser with fallback to the
stored interval — differs from the stored interval cancels and removes the
existing timer and re-runs registration: afterwards the context has exactly
one active timer, a fresh one (distinct from the old) running at the
registration-resolved (clamped) interval of the new string, the stored
interval equals that resolved interval, and the state is reset to 0. -/
theorem settings_update_changed_restart (st : RegistryState) (ctx s : String)
    (t : Timer) (_ht : st.timers ctx = some t) (hfresh : t.id < st.nextTimerId)
    (hne : newIntervalOf st ctx (some s) ≠ currentIntervalOf st ctx) :
    (onDidReceiveSettings st ctx (some s)).timers ctx =
      some { id := st.nextTimerId, interval := resolveInterval s } ∧
    ({ id := st.nextTimerId, interval := resolveInterval s } : Timer) ≠ t ∧
    (onDidReceiveSettings st ctx (some s)).states ctx = some 0 ∧
    (onDidReceiveSettings st ctx (some s)).fetchIntervals ctx =
      some (resolveInterval s) := by
  have hstep : onDidReceiveSettings st ctx (some s) =
      registerSchedule { st with timers := setEntry st.timers ctx none } ctx (some s) := by
    simp [onDidReceiveSettings, hne]
  have htim : (({ st with timers := setEntry st.timers ctx none } :
      RegistryState).timers ctx).isSome = false := by
    simp [setEntry]
  refine ⟨?_, ?_, ?_, ?_⟩
  · rw [hstep]; simp [registerSchedule, htim, setEntry]
  · intro heq
    have hid : st.nextTimerId = t.id := congrArg Timer.id heq
    omega
  · rw [hstep]; simp [registerSchedule, htim, setEntry]
  · rw [hstep]; simp [registerSchedule, htim, setEntry]

/-- Witness for C4 (amended): updating the 1500ms context with raw "2000". -/
theorem settings_update_changed_restart_witness :
    (onDidReceiveSettings sampleStrictState "ctx-a" (some "2000")).states "ctx-a" =
      some 0 :=
  (settings_update_changed_restart sampleStrictState "ctx-a" "2000"
    { id := 0, interval := 1500 } (by decide) (by decide) (by decide)).2.2.1

theorem setEntry_none_twice {α : Type} (f : String → Option α) (k : String) :
    setEntry (setEntry f k none) k none = setEntry f k none := by
  funext c
  by_cases hc : c = k
  · simp [setEntry, hc]
  · simp [setEntry, hc]

theorem setEntry_none_absent {α : Type} (f : String → Option α) (k : String)
    (h : f k = none) : setEntry f k none = f := by
  funext c
  by_cases hc : c = k
  · subst hc; simp [setEntry, h]
  · simp [setEntry, hc]

/-- Claim C6: deregistration removes the context's entries from all three
maps, is idempotent, leaves a registry without entries for the context
unchanged, and a subsequent key down or key up for the context re-applies
state 0 (offline). -/
theorem deregister_removes_all (st : RegistryState) (ctx sid : String) :
    (onWillDisappear st ctx).timers ctx = none ∧
    (onWillDisappear st ctx).states ctx = none ∧
    (onWillDisappear st ctx).fetchIntervals ctx = none ∧
    onWillDisappear (onWillDisappear st ctx) ctx = onWillDisappear st ctx ∧
    (st.timers ctx = none → st.states ctx = none → st.fetchIntervals ctx = none →
      onWillDisappear st ctx = st) ∧
    onKeyDown (onWillDisappear st ctx) ctx sid =
      [HostCommand.setVisualState 0,
       HostCommand.openUrl ("https://play.sooplive.co.kr/" ++ sid)] ∧
    onKeyUp (onWillDisappear st ctx) ctx = [HostCommand.setVisualState 0] := by
  refine ⟨by simp [onWillDisappear, setEntry], by simp [onWillDisappear, setEntry],
    by simp [onWillDisappear, setEntry], ?_, ?_, ?_, ?_⟩
  · simp only [onWillDisappear]
    congr 1 <;> apply setEntry_none_twice
  · intro h1 h2 h3
    simp only [onWillDisappear]
    rw [setEntry_none_absent st.timers ctx h1, setEntry_none_absent st.states ctx h2,
      setEntry_none_absent st.fetchIntervals ctx h3]
  · simp [onKeyDown, onWillDisappear, stateOrZero, setEntry]
  · simp [onKeyUp, onWillDisappear, stateOrZero, setEntry]

/-- Witness for C6 on the empty registry. -/
theorem deregister_removes_all_witness :
    onWillDisappear emptyState "ctx-a" = emptyState :=
  (deregister_removes_all emptyState "ctx-a" "streamer").2.2.2.2.1 rfl rfl rfl

theorem char_digit_toNat_bounds {c : Char} (h : c.isDigit = true) :
    48 ≤ c.toNat ∧ c.toNat ≤ 57 := by
  unfold Char.isDigit at h
  rw [Bool.and_eq_true, decide_eq_true_eq, decide_eq_true_eq] at h
  exact ⟨UInt32.le_toNat_of_le (by norm_num [UInt32.size]) h.1,
    UInt32.toNat_le_of_le (by norm_num [UInt32.size]) h.2⟩

theorem charDigitVal_of_digit {c : Char} (h : c.isDigit = true) :
    charDigitVal 10 c = some (c.toNat - 48) := by
  obtain ⟨h1, h2⟩ := char_digit_toNat_bounds h
  simp only [charDigitVal, h, if_true]
  rw [if_pos (by omega)]

theorem digitsAcc_ofDigits (cs : List Char) (acc : Nat)
    (h : cs.all Char.isDigit = true) :
    digitsAcc 10 cs acc =
      acc * 10 ^ cs.length + Nat.ofDigits 10 ((cs.map fun c => c.toNat - 48).reverse) := by
  induction cs generalizing acc with
  | nil => simp [digitsAcc, Nat.ofDigits]
  | cons c cs ih =>
    rw [List.all_cons, Bool.and_eq_true] at h
    simp only [digitsAcc, charDigitVal_of_digit h.1]
    rw [ih _ h.2]
    simp only [List.map_cons, List.reverse_cons, Nat.ofDigits_append,
      List.length_reverse, List.length_map, List.length_cons, Nat.ofDigits_singleton]
    ring

/-- Claim C7: `safeParseInt` succeeds exactly on defined, non-empty strings
of ASCII digits, returning the decimal value of the string, and fails with
the invalid-number-format error on `undefined`, on the empty string, and on
any string containing a non-digit character. -/
theorem safeParseInt_strict (s : String) :
    safeParseInt none = .error .invalidNumberFormat ∧
    (s.data ≠ [] → s.data.all Char.isDigit = true →
      safeParseInt (some s) =
        .ok (Nat.ofDigits 10 ((s.data.map fun c => c.toNat - 48).reverse))) ∧
    (s.data = [] → safeParseInt (some s) = .error .invalidNumberFormat) ∧
    (s.data.all Char.isDigit = false →
      safeParseInt (some s) = .error .invalidNumberFormat) := by
  refine ⟨rfl, ?_, ?_, ?_⟩
  · intro h1 h2
    have hval := digitsAcc_ofDigits s.data 0 h2
    simp only [safeParseInt]
    rw [if_pos ⟨h1, by simp [h2]⟩, hval]
    simp
  · intro h1
    simp [safeParseInt, h1]
  · intro h1
    simp [safeParseInt, h1]

/-- Witness for C7 on the digit string "1500". -/
theorem safeParseInt_strict_witness :
    safeParseInt (some "1500") =
      .ok (Nat.ofDigits 10 (("1500".data.map fun c => c.toNat - 48).reverse)) :=
  (safeParseInt_strict "1500").2.1 (by decide) (by decide)

/-- Claim C9: any lifecycle operation performed for one context leaves the
timer, state and interval entries of every other context unchanged (key
down and key up do not mutate the registry at all — they only emit host
commands — so the three mutating operations are the ones to check). -/
theorem per_context_isolation (st : RegistryState) (a b : String)
    (fi : Option String) (h : b ≠ a) :
    ((registerSchedule st a fi).timers b = st.timers b ∧
     (registerSchedule st a fi).states b = st.states b ∧
     (registerSchedule st a fi).fetchIntervals b = st.fetchIntervals b) ∧
    ((onDidReceiveSettings st a fi).timers b = st.timers b ∧
     (onDidReceiveSettings st a fi).states b = st.states b ∧
     (onDidReceiveSettings st a fi).fetchIntervals b = st.fetchIntervals b) ∧
    ((onWillDisappear st a).timers b = st.timers b ∧
     (onWillDisappear st a).states b = st.states b ∧
     (onWillDisappear st a).fetchIntervals b = st.fetchIntervals b) := by
  refine ⟨registerSchedule_untouched st a b fi h, ?_,
    setEntry_ne st.timers a b none h, setEntry_ne st.states a b none h,
    setEntry_ne st.fetchIntervals a b none h⟩
  by_cases hc : newIntervalOf st a fi = currentIntervalOf st a
  · simp [onDidReceiveSettings, hc]
  · have hstep : onDidReceiveSettings st a fi =
        registerSchedule { st with timers := setEntry st.timers a none } a fi := by
      simp [onDidReceiveSettings, hc]
    have h2 := registerSchedule_untouched
      { st with timers := setEntry st.timers a none } a b fi h
    rw [hstep]
    refine ⟨?_, h2.2.1, h2.2.2⟩
    rw [h2.1]
    exact setEntry_ne st.timers a b none h

/-- Witness for C9 with two distinct contexts. -/
theorem per_context_isolation_witness :
    (onWillDisappear emptyState "ctx-a").timers "ctx-b" = emptyState.timers "ctx-b" :=
  (per_context_isolation emptyState "ctx-a" "ctx-b" none (by decide)).2.2.1

end StreamChecker
